import Mathlib

/-!
Verification development for the Medical Interpreter frontend
(React/TypeScript), centred on the interpretation-session coordinator:
the `useVoiceConversation` hook (the revision that includes medical-action
detection, the emergency timeout and force-completion on stop, as described
by the repository architecture document), the `conversationSlice`,
`voiceSlice` and `intentSlice` Redux reducers.

The embedding is shallow: the Redux store state, the mutable refs of the
hook (`currentPairRef`, `assistantTranscriptRef`, `translationTimeoutRef`)
and the observable effect log (messages sent over the WebRTC data channel,
persistence calls dispatched) are gathered in one state record `AppState`;
each reducer and each hook callback becomes a pure state-transition
function.  JavaScript strings are modelled as Lean strings; `Date.now()`
is modelled by a monotone clock field `now` (two distinct calls read
distinct instants).  `setTimeout` callbacks (the 4-second emergency
timeout and similar) are modelled as separate state transitions that the
environment may apply; arming and clearing the timer is tracked by a
Boolean flag.  Console logging has no observable effect and is dropped.
-/

namespace MedInterp

/-! ## JavaScript string primitives

Lean models the exact JS operations used by the code:
`String.prototype.toLowerCase` (restricted to the alphabet that actually
occurs: ASCII letters plus the Spanish accented letters),
`String.prototype.trim`, `String.prototype.includes`, and the regex
constructs of `detectLanguage` (character class and word-boundary
matching with JS semantics, where only `[A-Za-z0-9_]` are word
characters). -/

/-- JS `toLowerCase` on one character: ASCII uppercase plus the uppercase
Spanish accented letters map to lowercase; everything else is fixed. -/
def lowerChar (c : Char) : Char :=
  if 65 ≤ c.toNat ∧ c.toNat ≤ 90 then Char.ofNat (c.toNat + 32)
  else if c = 'Ñ' then 'ñ'
  else if c = 'Á' then 'á'
  else if c = 'É' then 'é'
  else if c = 'Í' then 'í'
  else if c = 'Ó' then 'ó'
  else if c = 'Ú' then 'ú'
  else if c = 'Ü' then 'ü'
  else c

/-- JS `String.prototype.toLowerCase`. -/
def jsToLower (s : String) : String :=
  ⟨s.data.map lowerChar⟩

/-- JS `String.prototype.trim`: strip whitespace from both ends. -/
def jsTrim (s : String) : String :=
  ⟨((s.data.dropWhile Char.isWhitespace).reverse.dropWhile
      Char.isWhitespace).reverse⟩

/-- Contiguous-sublist test on character lists (used for JS `includes`). -/
def infixOfCheck (sub : List Char) : List Char → Bool
  | [] => sub.isEmpty
  | c :: rest => sub.isPrefixOf (c :: rest) || infixOfCheck sub rest

/-- JS `haystack.includes(needle)`. -/
def strIncludes (haystack needle : String) : Bool :=
  infixOfCheck needle.data haystack.data

/-- JS regex `\w` character class: `[A-Za-z0-9_]`. -/
def isWordCharJS (c : Char) : Bool :=
  (65 ≤ c.toNat ∧ c.toNat ≤ 90) || (97 ≤ c.toNat ∧ c.toNat ≤ 122) ||
    (48 ≤ c.toNat ∧ c.toNat ≤ 57) || c = '_'

/-- JS regex `\b` between two (optional) characters: a boundary exists
when exactly one side is a word character (a missing side counts as
non-word). -/
def wordBoundary (left right : Option Char) : Bool :=
  (match left with | some c => isWordCharJS c | none => false) !=
    (match right with | some c => isWordCharJS c | none => false)

/-- Case-insensitive match of the word `w` at position `i` of `cs`, with a
JS `\b` boundary required on both sides (semantics of `\bw\b` under the
`i` flag). -/
def wordAtWithBoundary (cs : List Char) (i : Nat) (w : List Char) : Bool :=
  let seg := (cs.drop i).take w.length
  seg.length = w.length && (seg.map lowerChar == w) &&
    wordBoundary (if i = 0 then none else cs.get? (i - 1)) (cs.get? i) &&
    wordBoundary (cs.get? (i + w.length - 1)) (cs.get? (i + w.length))

/-- Whole-word (JS `\b`-delimited), case-insensitive containment. -/
def containsWholeWord (cs : List Char) (w : String) : Bool :=
  (List.range (cs.length + 1)).any (fun i => wordAtWithBoundary cs i w.data)

/-- The accented characters of the regex class `[ñáéíóúü]`. -/
def spanishAccentChars : List Char := ['ñ', 'á', 'é', 'í', 'ó', 'ú', 'ü']

/-- The Spanish stop-words of the `detectLanguage` regex alternation. -/
def spanishStopwords : List String :=
  ["el", "la", "es", "está", "son", "por", "para", "con", "sin", "muy",
   "más", "como", "qué", "cómo", "dónde", "cuándo"]

/-- `detectLanguage` (hook): tests the text against
`/[ñáéíóúü]|(\b(el|la|es|está|son|por|para|con|sin|muy|más|como|qué|cómo|dónde|cuándo)\b)/i`;
`true` means the utterance is detected as Spanish. -/
def detectLanguage (text : String) : Bool :=
  let cs := text.data
  cs.any (fun c => spanishAccentChars.contains (lowerChar c)) ||
    spanishStopwords.any (containsWholeWord cs)

/-! ## Data model -/

/-- Language tags (the code uses the literals `'English'` and `'Spanish'`). -/
inductive Language where
  | english
  | spanish
deriving DecidableEq

/-- `TranslationPair` as stored by the conversation slice
(`{ id, originalText, translatedText, originalLang, translatedLang,
timestamp, isComplete }`); the ISO timestamp string is modelled by the
clock instant at which the pair was created. -/
structure TranslationPair where
  id : String
  originalText : String
  translatedText : String
  originalLang : Language
  translatedLang : Language
  timestamp : Nat
  isComplete : Bool
deriving DecidableEq

/-- A queued message of the voice slice
(`{ type: 'delta' | 'final'; content: string }`). -/
inductive QueuedMessage where
  | delta (content : String)
  | final (content : String)
deriving DecidableEq

/-- Messages sent outward over the WebRTC data channel
(`webrtcService.sendMessage`), reduced to the payload that matters:
a `conversation.item.create` carrying the repeat-command text, a
`response.create` carrying instructions, or a
`conversation.item.create` carrying a function-call output. -/
inductive OutboundMessage where
  | repeatCommand (text : String)
  | responseCreate (instructions : String)
  | functionCallOutput (callId output : String)
deriving DecidableEq

/-- Intent classification of the intent slice. -/
inductive IntentType where
  | translation
  | labOrder
  | appointment
deriving DecidableEq

/-- Medical-action type returned by `detectMedicalAction`
(`'lab-order' | 'appointment' | null`). -/
inductive ActionType where
  | labOrder
  | appointment
deriving DecidableEq

/-- The combined state: the Redux store (conversation, voice and intent
slices), the mutable refs of the `useVoiceConversation` hook, the armed
state of the emergency timeout and the observable effect log.
`webrtcSessionId` is the session id held by `webrtcService`
(the third fallback of the session-id lookup); `now` is the `Date.now()`
clock.  UI-only slice fields that none of the modelled operations read
(`sessions`, `conversationHistory`, `selectedConversation`, `loading`,
`error`, `errorMessage`, intent icon and label) are omitted. -/
structure AppState where
  -- conversation slice
  translationPairs : List TranslationPair
  currentSessionId : Option String
  currentMessages : List String
  -- voice slice
  lastTranslation : String
  pendingUserMessage : Bool
  messageQueue : List QueuedMessage
  conversationEnded : Bool
  connectionSessionId : Option String
  connectionIsConnected : Bool
  connectionState : String
  voiceStatus : String
  isListening : Bool
  isError : Bool
  -- intent slice
  currentIntent : IntentType
  intentVisible : Bool
  -- hook refs (currentPairRef, assistantTranscriptRef, translationTimeoutRef)
  currentPair : Option String
  assistantTranscript : String
  emergencyTimerArmed : Bool
  -- environment and effect log
  webrtcSessionId : Option String
  now : Nat
  sentMessages : List OutboundMessage
  savedMessages : List (String × String)
  persistenceLog : List String
deriving DecidableEq

/-- The initial store state (slices' `initialState`, refs null, no
effects yet). -/
def initState : AppState where
  translationPairs := []
  currentSessionId := none
  currentMessages := []
  lastTranslation := ""
  pendingUserMessage := false
  messageQueue := []
  conversationEnded := false
  connectionSessionId := none
  connectionIsConnected := false
  connectionState := "new"
  voiceStatus := "Ready to start medical interpretation! 🏥"
  isListening := false
  isError := false
  currentIntent := .translation
  intentVisible := false
  currentPair := none
  assistantTranscript := ""
  emergencyTimerArmed := false
  webrtcSessionId := none
  now := 0
  sentMessages := []
  savedMessages := []
  persistenceLog := []

/-! ## Redux reducers

Translated from `conversationSlice.ts`, `voiceSlice.ts` and
`intentSlice.ts`. -/

/-- Update the first pair whose `id` matches (the reducer does
`state.translationPairs.find(p => p.id === action.payload.id)` and
mutates the found pair); when `isComplete` is absent in the payload the
flag is left as it was; when no pair matches, a warning is logged and
nothing changes. -/
def updateFirstPair (pairs : List TranslationPair) (pid text : String)
    (complete? : Option Bool) : List TranslationPair :=
  match pairs with
  | [] => []
  | p :: rest =>
    if p.id = pid then
      { p with translatedText := text,
               isComplete := complete?.getD p.isComplete } :: rest
    else
      p :: updateFirstPair rest pid text complete?

/-- Reducer `addTranslationPair`: `state.translationPairs.unshift(pair)`
(insert at the beginning, latest first). -/
def addTranslationPairA (s : AppState) (p : TranslationPair) : AppState :=
  { s with translationPairs := p :: s.translationPairs }

/-- Reducer `updateTranslationPair` with payload
`{ id, translatedText, isComplete? }`. -/
def updateTranslationPairA (s : AppState) (pid text : String)
    (complete? : Option Bool) : AppState :=
  { s with translationPairs :=
      updateFirstPair s.translationPairs pid text complete? }

/-- Reducer `clearCurrentSession`. -/
def clearCurrentSessionA (s : AppState) : AppState :=
  { s with currentSessionId := none, currentMessages := [],
           translationPairs := [] }

/-- Reducer `setLastTranslation`. -/
def setLastTranslationA (s : AppState) (t : String) : AppState :=
  { s with lastTranslation := t }

/-- Reducer `setPendingUserMessage`. -/
def setPendingUserMessageA (s : AppState) (b : Bool) : AppState :=
  { s with pendingUserMessage := b }

/-- Reducer `clearMessageQueue`. -/
def clearMessageQueueA (s : AppState) : AppState :=
  { s with messageQueue := [] }

/-- Reducer `updateVoiceStatus`: the payload's optional `isError` and
`isListening` default to `false` (`action.payload.isError || false`). -/
def updateVoiceStatusA (s : AppState) (status : String)
    (isError isListening : Bool) : AppState :=
  { s with voiceStatus := status, isError := isError,
           isListening := isListening }

/-- Reducer `resetVoiceState`: resets voice status, last translation,
conversation-ended flag, pending-message flag and the message queue
(the connection field is kept for cleanup). -/
def resetVoiceStateA (s : AppState) : AppState :=
  { s with connectionIsConnected := false, isListening := false,
           voiceStatus := "Ready to start medical interpretation! 🏥",
           isError := false, lastTranslation := "",
           conversationEnded := false, pendingUserMessage := false,
           messageQueue := [] }

/-- Reducer `cleanupConnection`: resets the serializable connection info. -/
def cleanupConnectionA (s : AppState) : AppState :=
  { s with connectionSessionId := none, connectionIsConnected := false,
           connectionState := "new" }

/-- Lab-order keywords of the intent slice. -/
def intentLabKeywords : List String :=
  ["send lab order", "order tests", "get labs", "blood work",
   "run tests", "lab tests", "blood tests", "urine test",
   "x-ray", "scan"]

/-- Appointment keywords of the intent slice. -/
def intentAppointmentKeywords : List String :=
  ["schedule follow-up", "next appointment", "come back in",
   "see you again", "follow up", "schedule appointment",
   "book appointment"]

/-- Reducer `detectIntent` of the intent slice. -/
def detectIntentA (s : AppState) (transcript : String) : AppState :=
  let text := jsTrim (jsToLower transcript)
  let hasLabIntent := intentLabKeywords.any (strIncludes text)
  let hasAppointmentIntent := intentAppointmentKeywords.any (strIncludes text)
  let newIntent : IntentType :=
    if hasLabIntent then .labOrder
    else if hasAppointmentIntent then .appointment
    else .translation
  { s with currentIntent := newIntent }

/-- Reducer `showIntent`. -/
def showIntentA (s : AppState) : AppState :=
  { s with intentVisible := true }

/-- Reducer `hideIntent`. -/
def hideIntentA (s : AppState) : AppState :=
  { s with intentVisible := false }

/-! ## Effect primitives -/

/-- `webrtcService.sendMessage`: append the outbound message to the
effect log. -/
def sendMessageF (s : AppState) (m : OutboundMessage) : AppState :=
  { s with sentMessages := s.sentMessages ++ [m] }

/-- Session-id lookup used throughout the hook:
`connection?.sessionId || currentSession?.session_id ||
webrtcService.getConnection().sessionId` (session ids are non-empty
strings, so JS falsiness coincides with absence). -/
def sessionIdLookup (s : AppState) : Option String :=
  match s.connectionSessionId with
  | some sid => some sid
  | none =>
    match s.currentSessionId with
    | some sid => some sid
    | none => s.webrtcSessionId

/-- A `dispatch(saveMessage({...}))` call (fire-and-forget; its
resolution never mutates the live state, so only the attempt is
logged). -/
def saveMessageF (s : AppState) (messageType content : String) : AppState :=
  { s with savedMessages := s.savedMessages ++ [(messageType, content)] }

/-! ## Hook callbacks

Translated from the `useVoiceConversation` hook (the revision with
medical-action detection and force-completion, which the repository
architecture document attributes to `useVoiceConversation.ts`). -/

/-- `startEmergencyTimeout`: clears any previous timeout and arms the
4000 ms timer.  The firing of the timer is the separate transition
`emergencyTimeoutFire`. -/
def startEmergencyTimeoutA (s : AppState) : AppState :=
  { s with emergencyTimerArmed := true }

/-- `clearEmergencyTimeout`. -/
def clearEmergencyTimeoutA (s : AppState) : AppState :=
  { s with emergencyTimerArmed := false }

/-- The body of the 4-second emergency timeout callback: if a translation
pair is still tracked, force-complete it with the accumulated transcript
(trimmed) or the fallback string, clear the refs; then reset the
pending-message flag, the message queue and the status.  The timer is
one-shot, so firing disarms it. -/
def emergencyTimeoutFire (s : AppState) : AppState :=
  let s := { s with emergencyTimerArmed := false }
  let s :=
    match s.currentPair with
    | some pid =>
      let fallbackText :=
        if jsTrim s.assistantTranscript ≠ "" then jsTrim s.assistantTranscript
        else "Translation timeout - please speak again"
      let s := updateTranslationPairA s pid fallbackText (some true)
      { s with currentPair := none, assistantTranscript := "" }
    | none => s
  let s := setPendingUserMessageA s false
  let s := clearMessageQueueA s
  updateVoiceStatusA s "🎤 Ready for medical interpretation..." false false

/-- `forceCompleteIncompleteTranslations`: complete the current pair (if
any) with the accumulated transcript or a fallback, clear the refs, and
clear the emergency timeout. -/
def forceCompleteIncompleteTranslations (s : AppState) : AppState :=
  let s :=
    match s.currentPair with
    | some pid =>
      let finalText :=
        if jsTrim s.assistantTranscript ≠ "" then jsTrim s.assistantTranscript
        else "Session ended"
      let s := updateTranslationPairA s pid finalText (some true)
      { s with currentPair := none, assistantTranscript := "" }
    | none => s
  clearEmergencyTimeoutA s

/-- `createTranslationPair`: generates `pairId = Date.now().toString()`,
stores it in `currentPairRef`, and dispatches `addTranslationPair` with
`isComplete: false`.  Reading the clock advances it (two creations happen
at distinct instants). -/
def createTranslationPairF (s : AppState) (originalText translatedText : String)
    (originalLang translatedLang : Language) : AppState :=
  let pairId := toString s.now
  let s' := { s with currentPair := some pairId, now := s.now + 1 }
  addTranslationPairA s'
    { id := pairId
      originalText := originalText
      translatedText := translatedText
      originalLang := originalLang
      translatedLang := translatedLang
      timestamp := s.now
      isComplete := false }

/-- `updateAssistantTranscript`: append the delta to the streaming buffer
and, when a pair is tracked, republish the buffer as its (non-final)
translated text. -/
def updateAssistantTranscriptF (s : AppState) (delta : String) : AppState :=
  let s := { s with assistantTranscript := s.assistantTranscript ++ delta }
  match s.currentPair with
  | some pid => updateTranslationPairA s pid s.assistantTranscript (some false)
  | none => s

/-- `finalizeAssistantTranscript`: when a pair is tracked, finalize it
with the given text (`isComplete: true`); then best-effort save the
assistant message when a session id and a non-empty text are available;
finally clear both refs. -/
def finalizeAssistantTranscriptF (s : AppState) (finalText : String) : AppState :=
  let s :=
    match s.currentPair with
    | some pid => updateTranslationPairA s pid finalText (some true)
    | none => s
  let s :=
    if (sessionIdLookup s).isSome ∧ finalText ≠ "" then
      saveMessageF s "assistant" finalText
    else s
  { s with assistantTranscript := "", currentPair := none }

/-! ## Command interception -/

/-- Repeat-request keywords checked by `handleUserTranscript`. -/
def repeatKeywords : List String :=
  ["repeat that", "repeat", "say again", "repite eso", "repite",
   "otra vez", "repítelo", "dilo otra vez"]

/-- `repeatKeywords.some(keyword => text.includes(keyword))` over the
lower-cased, trimmed transcript. -/
def isRepeatRequest (transcript : String) : Bool :=
  let text := jsTrim (jsToLower transcript)
  repeatKeywords.any (strIncludes text)

/-- Lab-order keywords of `detectMedicalAction`. -/
def labKeywords : List String :=
  ["send lab order", "order tests", "get labs", "blood work",
   "run tests", "lab order"]

/-- Appointment keywords of `detectMedicalAction`. -/
def appointmentKeywords : List String :=
  ["schedule follow-up", "follow-up appointment", "next appointment",
   "come back in", "see you again", "schedule appointment"]

/-- `detectMedicalAction`: keyword matching over the lower-cased,
trimmed transcript; returns `isMedicalAction` and the action type
(lab order wins over appointment). -/
def detectMedicalActionF (transcript : String) : Bool × Option ActionType :=
  let text := jsTrim (jsToLower transcript)
  let hasLabOrder := labKeywords.any (strIncludes text)
  let hasAppointment := appointmentKeywords.any (strIncludes text)
  (hasLabOrder || hasAppointment,
   if hasLabOrder then some .labOrder
   else if hasAppointment then some .appointment
   else none)

/-- Classification outcome of a finalized utterance. -/
inductive UtteranceClass where
  | repeatRequest
  | medicalAction
  | ordinary
deriving DecidableEq

/-- The branch order of `handleUserTranscript`: the repeat branch is
taken when a repeat keyword matches AND `lastTranslation` is non-empty
(`if (isRepeatRequest && lastTranslation)`), then the medical-action
branch, then ordinary translation. -/
def classifyTranscript (lastTranslation transcript : String) : UtteranceClass :=
  if isRepeatRequest transcript && lastTranslation ≠ "" then .repeatRequest
  else if (detectMedicalActionF transcript).1 then .medicalAction
  else .ordinary

/-- `handleUserTranscript`: intent detection, then the three-way branch
(repeat replay / medical-action placeholder / ordinary translation pair),
exactly in source order.  The 100 ms deferred `processMessageQueue` of
the ordinary branch is a separately scheduled transition and not part of
this synchronous step. -/
def handleUserTranscriptF (s : AppState) (transcript : String) : AppState :=
  let s := showIntentA (detectIntentA s transcript)
  match classifyTranscript s.lastTranslation transcript with
  | .repeatRequest =>
    let last := s.lastTranslation
    let s := updateVoiceStatusA s "🔄 Repeating last translation..." false false
    let s := createTranslationPairF s transcript "" .english .spanish
    let s := sendMessageF s (.repeatCommand
      ("REPEAT_COMMAND: Please repeat exactly: \"" ++ last ++ "\""))
    let s := sendMessageF s (.responseCreate
      ("Say exactly this again: \"" ++ last ++
       "\". Do not translate this instruction - just repeat the translation."))
    setPendingUserMessageA s false
  | .medicalAction =>
    let actionType := (detectMedicalActionF transcript).2
    let actionIcon := if actionType = some .labOrder then "🧪" else "📅"
    let actionLabel :=
      if actionType = some .labOrder then "Processing Lab Order"
      else "Scheduling Appointment"
    let s := createTranslationPairF s transcript
      (actionIcon ++ " " ++ actionLabel ++ "...") .english .english
    let s := updateVoiceStatusA s (actionIcon ++ " Processing medical action...")
      false false
    setPendingUserMessageA s false
  | .ordinary =>
    let isSpanish := detectLanguage transcript
    let originalLang : Language := if isSpanish then .spanish else .english
    let translatedLang : Language := if isSpanish then .english else .spanish
    let s := createTranslationPairF s transcript "" originalLang translatedLang
    let s :=
      if (sessionIdLookup s).isSome then saveMessageF s "user" transcript else s
    setPendingUserMessageA s false

/-- The `response.audio_transcript.done` case of `handleRealtimeEvent`.
When the event carries a non-blank transcript: a standalone `Done` with
no tracked pair was already handled by the function-call path and is
ignored; otherwise a tracked pair is finalized with the trimmed
transcript, which also becomes the last translation.  When the
transcript is blank or missing, the accumulated delta text (if
non-blank) is used instead; if neither is available the pair is left
open for the later recovery paths. -/
def handleAudioTranscriptDoneF (s : AppState) (transcript? : Option String) :
    AppState :=
  let present : Bool :=
    match transcript? with
    | some t => jsTrim t != ""
    | none => false
  if present then
    let finalTranscript := jsTrim (transcript?.getD "")
    if jsToLower finalTranscript = "done" ∧ s.currentPair = none then
      let s := clearEmergencyTimeoutA s
      updateVoiceStatusA s "🎤 Ready for medical interpretation..." false false
    else if s.currentPair.isSome then
      let s := setLastTranslationA s finalTranscript
      let s := finalizeAssistantTranscriptF s finalTranscript
      let s := clearEmergencyTimeoutA s
      let s := { s with currentPair := none, assistantTranscript := "" }
      updateVoiceStatusA s "✅ Translation complete! Ready for next speaker..."
        false false
    else s
  else
    if jsTrim s.assistantTranscript ≠ "" then
      let s := finalizeAssistantTranscriptF s (jsTrim s.assistantTranscript)
      let s := clearEmergencyTimeoutA s
      let s := { s with currentPair := none, assistantTranscript := "" }
      updateVoiceStatusA s "✅ Translation complete! Ready for next speaker..."
        false false
    else s

/-- The continuation of `handleFunctionCall` after
`dispatch(sendFunctionCall(...)).unwrap()` resolves successfully (the
session id `sid` was already resolved before the await, and the awaited
`result` is the serialized function output).  It saves the action
message, marks the tracked medical-action pair as completed with the
confirmation text `Done`, clears the refs, sends the function output and
the one-word acknowledgment request outward, and updates the status.
The 2-second deferred summary generation is a detached task and a
separate transition. -/
def handleFunctionCallSuccessF (s : AppState) (functionName callId : String)
    (_sid result : String) : AppState :=
  let s := saveMessageF s "system"
    ("🔧 Medical Action: " ++ functionName ++ " executed successfully")
  let s :=
    match s.currentPair with
    | some pid =>
      let s := updateTranslationPairA s pid "Done" (some true)
      { s with currentPair := none, assistantTranscript := "" }
    | none => s
  let s := sendMessageF s (.functionCallOutput callId result)
  let s := sendMessageF s (.responseCreate
    ("Say EXACTLY \x27Done\x27 - one single word only. Do NOT say " ++
     "\x27Done.\x27 with a period. Do NOT say \x27Done, the lab order " ++
     "has been sent\x27. Do NOT explain anything. Do NOT translate. " ++
     "Just say \x27Done\x27 and stop immediately."))
  updateVoiceStatusA s "✅ Medical action completed! Ready for next speaker..."
    false false

/-- `stopVoiceChat`: status, force-completion of any incomplete
translation, then best-effort persistence (`endSession`, then
`generateSummary`; a rejection of either is caught and cleanup
continues), then teardown — WebRTC cleanup, connection reset, voice
state reset, conversation state cleared, intent hidden, refs and timers
cleared.  `endOk` and `summaryOk` are the outcomes of the two awaited
persistence calls. -/
def stopVoiceChatF (s : AppState) (endOk summaryOk : Bool) : AppState :=
  let s := updateVoiceStatusA s
    "💾 Saving conversation and generating summary..." false false
  let s := forceCompleteIncompleteTranslations s
  let s :=
    if (sessionIdLookup s).isSome then
      let s := { s with persistenceLog := s.persistenceLog ++ ["endSession"] }
      if endOk then
        -- endSession resolved; the summary call is attempted next
        { s with persistenceLog := s.persistenceLog ++ ["generateSummary"] }
      else s  -- rejection caught: cleanup continues
    else s
  -- webrtcService.cleanup() tears down the transport
  let s := { s with webrtcSessionId := none }
  let s := cleanupConnectionA s
  let s := resetVoiceStateA s
  let s := clearCurrentSessionA s
  let s := hideIntentA s
  let s := { s with currentPair := none, assistantTranscript := "",
                    emergencyTimerArmed := false }
  let s := clearEmergencyTimeoutA s
  let _ := summaryOk
  updateVoiceStatusA s "Session ended! Summary saved to history. 📋" false false

/-! ## Protocol event router -/

/-- The transport events relevant to the modelled behavior of
`handleRealtimeEvent` (the remaining cases of the switch are logging or
pure status updates). -/
inductive RealtimeEvent where
  | sessionCreated
  | sessionUpdated
  | speechStarted
  | speechStopped
  | responseCreated
  | audioTranscriptDelta (delta : Option String)
  | audioTranscriptDone (transcript : Option String)
  | responseDone
  | userTranscriptCompleted (transcript : Option String)
  | errorEvent
deriving DecidableEq

/-- The synchronous body of `handleRealtimeEvent` for each event.  Parts
of a case that run inside a `setTimeout` (the 2-second no-delta check of
`response.created`, the 1-second force-completion check of
`response.done`, the 800 ms grace window of
`output_audio_buffer.stopped`) and the asynchronous continuation of a
function call are separate transitions, not part of this step. -/
def handleRealtimeEventF (s : AppState) (e : RealtimeEvent) : AppState :=
  match e with
  | .sessionCreated =>
    updateVoiceStatusA s "✅ Connected to OpenAI! Start speaking..." false false
  | .sessionUpdated =>
    updateVoiceStatusA s "🎤 Ready for medical interpretation..." false false
  | .speechStarted =>
    let s := updateVoiceStatusA s "🎤 Listening for interpretation..." false true
    setPendingUserMessageA s true
  | .speechStopped =>
    updateVoiceStatusA s "🔄 Processing and translating..." false false
  | .responseCreated =>
    let s := updateVoiceStatusA s "🗣️ Generating translation..." false false
    startEmergencyTimeoutA s
  | .audioTranscriptDelta delta? =>
    match delta? with
    | some delta =>
      if jsTrim delta ≠ "" then updateAssistantTranscriptF s delta else s
    | none => s
  | .audioTranscriptDone transcript? => handleAudioTranscriptDoneF s transcript?
  | .responseDone =>
    let s := clearEmergencyTimeoutA s
    setPendingUserMessageA s false
  | .userTranscriptCompleted transcript? =>
    match transcript? with
    | some transcript => handleUserTranscriptF s transcript
    | none => s
  | .errorEvent =>
    { s with isError := true }

/-- Process a sequence of transport events, one synchronous handler body
per event. -/
def processEvents (s : AppState) (es : List RealtimeEvent) : AppState :=
  es.foldl handleRealtimeEventF s

/-- Pairs currently open (`isComplete = false`). -/
def countOpen (pairs : List TranslationPair) : Nat :=
  (pairs.filter (fun p => !p.isComplete)).length

/-! ## Helper lemmas about the store operations -/

/-- When no stored pair carries the requested id, `updateFirstPair`
leaves the list untouched. -/
theorem updateFirstPair_of_not_mem (pairs : List TranslationPair)
    (pid text : String) (c? : Option Bool)
    (h : ∀ p ∈ pairs, p.id ≠ pid) :
    updateFirstPair pairs pid text c? = pairs := by
  induction pairs with
  | nil => rfl
  | cons p rest ih =>
    have hp : p.id ≠ pid := h p (List.mem_cons_self p rest)
    simp only [updateFirstPair, if_neg hp]
    rw [ih (fun q hq => h q (List.mem_cons_of_mem p hq))]

/-- When some stored pair carries the requested id, `updateFirstPair`
with `isComplete: true` leaves a pair with that id, the new text and the
completed flag in the list. -/
theorem updateFirstPair_mem (pairs : List TranslationPair)
    (pid text : String) (h : ∃ p ∈ pairs, p.id = pid) :
    ∃ p ∈ updateFirstPair pairs pid text (some true),
      p.id = pid ∧ p.translatedText = text ∧ p.isComplete = true := by
  induction pairs with
  | nil => simp at h
  | cons p rest ih =>
    by_cases hp : p.id = pid
    · refine ⟨{ p with translatedText := text, isComplete := true }, ?_, hp, rfl, rfl⟩
      simp [updateFirstPair, if_pos hp, Option.getD]
    · rcases h with ⟨q, hq, hqid⟩
      rcases List.mem_cons.mp hq with rfl | hq'
      · exact absurd hqid hp
      · rcases ih ⟨q, hq', hqid⟩ with ⟨r, hr, hrprop⟩
        exact ⟨r, by simp [updateFirstPair, if_neg hp, hr], hrprop⟩

/-- Updating the same pair with the same payload twice equals updating it
once (the reducer only overwrites fields with the payload values). -/
theorem updateFirstPair_idem (pairs : List TranslationPair)
    (pid text : String) (c? : Option Bool) :
    updateFirstPair (updateFirstPair pairs pid text c?) pid text c? =
      updateFirstPair pairs pid text c? := by
  induction pairs with
  | nil => rfl
  | cons p rest ih =>
    by_cases hp : p.id = pid
    · simp only [updateFirstPair, if_pos hp]
      cases c? <;> simp [updateFirstPair, hp]
    · simp only [updateFirstPair, if_neg hp, ih]

/-- `countOpen` over a freshly created (open) pair. -/
theorem countOpen_cons_open (p : TranslationPair) (l : List TranslationPair)
    (h : p.isComplete = false) : countOpen (p :: l) = countOpen l + 1 := by
  simp [countOpen, List.filter_cons, h]

/-! ## Claim theorems -/

/-- C6.  Finalize idempotence: dispatching `updateTranslationPair` with
the same payload (including `isComplete`) a second time produces no state
change beyond the first dispatch — in particular a second finalize
(`isComplete = true`) of an already-complete unit is a no-op. -/
theorem finalize_idempotent (s : AppState) (pid text : String)
    (c? : Option Bool) :
    updateTranslationPairA (updateTranslationPairA s pid text c?) pid text c? =
      updateTranslationPairA s pid text c? := by
  simp [updateTranslationPairA, updateFirstPair_idem]

/-- C9.  Newest-first ordering: `addTranslationPair` unshifts, so the new
pair sits at index 0 and the previously stored pairs follow unchanged and
in their previous relative order. -/
theorem addTranslationPair_newest_first (s : AppState) (p : TranslationPair) :
    (addTranslationPairA s p).translationPairs.head? = some p ∧
    (addTranslationPairA s p).translationPairs.tail = s.translationPairs := by
  simp [addTranslationPairA]

/-- C10.  Unknown-id update is a no-op: `updateTranslationPair` with an
id matching no stored pair leaves the entire conversation state
unchanged (the mismatch only produces a logged warning). -/
theorem update_unknown_id_noop (s : AppState) (pid text : String)
    (c? : Option Bool) (h : ∀ p ∈ s.translationPairs, p.id ≠ pid) :
    updateTranslationPairA s pid text c? = s := by
  simp [updateTranslationPairA,
        updateFirstPair_of_not_mem s.translationPairs pid text c? h]

/-- C10 witness: a concrete two-pair store and a foreign id. -/
theorem update_unknown_id_noop_witness :
    (∀ p ∈ ({ initState with translationPairs :=
        [{ id := "3", originalText := "hi", translatedText := "hola",
           originalLang := .english, translatedLang := .spanish,
           timestamp := 3, isComplete := true }] } : AppState).translationPairs,
       p.id ≠ "99") ∧
    updateTranslationPairA
      { initState with translationPairs :=
        [{ id := "3", originalText := "hi", translatedText := "hola",
           originalLang := .english, translatedLang := .spanish,
           timestamp := 3, isComplete := true }] } "99" "late text" (some true) =
      { initState with translationPairs :=
        [{ id := "3", originalText := "hi", translatedText := "hola",
           originalLang := .english, translatedLang := .spanish,
           timestamp := 3, isComplete := true }] } :=
  ⟨by decide,
   update_unknown_id_noop _ "99" "late text" (some true) (by decide)⟩

/-- C1 counterexample.  The at-most-one-open-unit invariant fails on the
code: two consecutive finalized user utterances (`hello`, then `world`),
with no completion in between, leave two translation pairs with
`isComplete = false` in the store simultaneously — `createTranslationPair`
redirects `currentPairRef` without force-completing the pair it was
tracking. -/
theorem at_most_one_open_counterexample :
    countOpen (processEvents initState
      [.userTranscriptCompleted (some "hello"),
       .userTranscriptCompleted (some "world")]).translationPairs = 2 := by
  decide

/-- C1 amended.  Processing a finalized user utterance always adds one
new open pair at the front of the store and leaves every previously
stored pair untouched — it never force-completes an existing open pair,
so the number of open pairs always grows by exactly one. -/
theorem handleUserTranscript_adds_open_pair (s : AppState) (t : String) :
    ∃ p, (handleUserTranscriptF s t).translationPairs = p :: s.translationPairs ∧
      p.isComplete = false ∧
      countOpen (handleUserTranscriptF s t).translationPairs =
        countOpen s.translationPairs + 1 := by
  unfold handleUserTranscriptF
  simp only [detectIntentA, showIntentA]
  rcases hcl : classifyTranscript s.lastTranslation t with _ | _ | _
  · simp only [hcl, updateVoiceStatusA, createTranslationPairF,
               addTranslationPairA, sendMessageF, setPendingUserMessageA]
    exact ⟨_, rfl, rfl, countOpen_cons_open _ _ rfl⟩
  · simp only [hcl, createTranslationPairF, addTranslationPairA,
               updateVoiceStatusA, setPendingUserMessageA]
    exact ⟨_, rfl, rfl, countOpen_cons_open _ _ rfl⟩
  · simp only [hcl, createTranslationPairF, addTranslationPairA, saveMessageF,
               setPendingUserMessageA, apply_ite AppState.translationPairs,
               ite_self]
    exact ⟨_, rfl, rfl, countOpen_cons_open _ _ rfl⟩

/-- The emergency-timeout fallback text is never empty. -/
theorem emergencyFallback_ne_empty (x : String) :
    (if jsTrim x ≠ "" then jsTrim x
     else "Translation timeout - please speak again") ≠ "" := by
  split
  · assumption
  · decide

/-- A fire of the emergency timeout with no tracked pair does not touch
the stored pairs. -/
theorem emergencyTimeoutFire_pairs_of_none (s : AppState)
    (h : s.currentPair = none) :
    (emergencyTimeoutFire s).translationPairs = s.translationPairs := by
  simp [emergencyTimeoutFire, h, setPendingUserMessageA, clearMessageQueueA,
        updateVoiceStatusA]

/-- C2.  Hard-ceiling recovery: if the 4-second emergency timer fires
while a pair is still tracked and stored, the fire finalizes that pair
(`isComplete = true`) with non-empty text and clears the tracking ref, so
a second fire leaves the stored pairs untouched (finalization happens
exactly once); and processing `response.created` arms the timer. -/
theorem hard_ceiling_recovery (s : AppState) (pid : String)
    (hc : s.currentPair = some pid)
    (hm : ∃ p ∈ s.translationPairs, p.id = pid) :
    (∃ p ∈ (emergencyTimeoutFire s).translationPairs,
        p.id = pid ∧ p.isComplete = true ∧ p.translatedText ≠ "") ∧
    (emergencyTimeoutFire s).currentPair = none ∧
    (emergencyTimeoutFire (emergencyTimeoutFire s)).translationPairs =
      (emergencyTimeoutFire s).translationPairs ∧
    (handleRealtimeEventF s .responseCreated).emergencyTimerArmed = true := by
  have hpairs : (emergencyTimeoutFire s).translationPairs =
      updateFirstPair s.translationPairs pid
        (if jsTrim s.assistantTranscript ≠ "" then jsTrim s.assistantTranscript
         else "Translation timeout - please speak again") (some true) := by
    simp [emergencyTimeoutFire, hc, updateTranslationPairA,
          setPendingUserMessageA, clearMessageQueueA, updateVoiceStatusA]
  have hnone : (emergencyTimeoutFire s).currentPair = none := by
    simp [emergencyTimeoutFire, hc, updateTranslationPairA,
          setPendingUserMessageA, clearMessageQueueA, updateVoiceStatusA]
  refine ⟨?_, hnone, emergencyTimeoutFire_pairs_of_none _ hnone, ?_⟩
  · rw [hpairs]
    obtain ⟨q, hq, hqid, hqtext, hqdone⟩ :=
      updateFirstPair_mem s.translationPairs pid _ hm
    exact ⟨q, hq, hqid, hqdone, hqtext ▸ emergencyFallback_ne_empty _⟩
  · simp [handleRealtimeEventF, startEmergencyTimeoutA, updateVoiceStatusA]

/-- C2 witness state: one open tracked pair, some accumulated text. -/
def ceilingSample : AppState :=
  { initState with
      currentPair := some "5"
      assistantTranscript := "hola "
      translationPairs :=
        [{ id := "5", originalText := "hello", translatedText := "hola",
           originalLang := .english, translatedLang := .spanish,
           timestamp := 5, isComplete := false }] }

/-- C2 witness: the hard-ceiling theorem applied to `ceilingSample`. -/
theorem hard_ceiling_recovery_witness :
    ceilingSample.currentPair = some "5" ∧
    (∃ p ∈ ceilingSample.translationPairs, p.id = "5") ∧
    ((∃ p ∈ (emergencyTimeoutFire ceilingSample).translationPairs,
        p.id = "5" ∧ p.isComplete = true ∧ p.translatedText ≠ "") ∧
     (emergencyTimeoutFire ceilingSample).currentPair = none ∧
     (emergencyTimeoutFire (emergencyTimeoutFire ceilingSample)).translationPairs =
       (emergencyTimeoutFire ceilingSample).translationPairs ∧
     (handleRealtimeEventF ceilingSample .responseCreated).emergencyTimerArmed = true) :=
  ⟨rfl, by decide, hard_ceiling_recovery ceilingSample "5" rfl (by decide)⟩

/-- Force-completion marks the tracked, stored pair as complete. -/
theorem forceComplete_finalizes (s : AppState) (pid : String)
    (hc : s.currentPair = some pid)
    (hm : ∃ p ∈ s.translationPairs, p.id = pid) :
    ∃ p ∈ (forceCompleteIncompleteTranslations s).translationPairs,
      p.id = pid ∧ p.isComplete = true := by
  have hpairs : (forceCompleteIncompleteTranslations s).translationPairs =
      updateFirstPair s.translationPairs pid
        (if jsTrim s.assistantTranscript ≠ "" then jsTrim s.assistantTranscript
         else "Session ended") (some true) := by
    simp [forceCompleteIncompleteTranslations, hc, updateTranslationPairA,
          clearEmergencyTimeoutA]
  rw [hpairs]
  obtain ⟨q, hq, hqid, _, hqdone⟩ :=
    updateFirstPair_mem s.translationPairs pid _ hm
  exact ⟨q, hq, hqid, hqdone⟩

/-- C3.  Stop with an open unit: `stopVoiceChat` first force-finalizes
the tracked open pair (`isComplete = true`, before any teardown), and for
every outcome of the `endSession` and `generateSummary` persistence
calls the cleanup completes: the connection is reset, the session
cleared, the refs and the emergency timer cleared — the session returns
to the idle configuration regardless of persistence failure. -/
theorem stop_force_finalizes_then_idles (s : AppState) (pid : String)
    (hc : s.currentPair = some pid)
    (hm : ∃ p ∈ s.translationPairs, p.id = pid) :
    (∃ p ∈ (forceCompleteIncompleteTranslations
        (updateVoiceStatusA s "💾 Saving conversation and generating summary..."
          false false)).translationPairs,
      p.id = pid ∧ p.isComplete = true) ∧
    ∀ endOk summaryOk : Bool,
      (stopVoiceChatF s endOk summaryOk).connectionSessionId = none ∧
      (stopVoiceChatF s endOk summaryOk).connectionState = "new" ∧
      (stopVoiceChatF s endOk summaryOk).connectionIsConnected = false ∧
      (stopVoiceChatF s endOk summaryOk).currentSessionId = none ∧
      (stopVoiceChatF s endOk summaryOk).translationPairs = [] ∧
      (stopVoiceChatF s endOk summaryOk).currentPair = none ∧
      (stopVoiceChatF s endOk summaryOk).emergencyTimerArmed = false := by
  constructor
  · exact forceComplete_finalizes _ pid (by simp [updateVoiceStatusA, hc])
      (by simpa [updateVoiceStatusA] using hm)
  · intro endOk summaryOk
    refine ⟨?_, ?_, ?_, ?_, ?_, ?_, ?_⟩ <;>
      simp [stopVoiceChatF, updateVoiceStatusA, forceCompleteIncompleteTranslations,
            hc, updateTranslationPairA, clearEmergencyTimeoutA, cleanupConnectionA,
            resetVoiceStateA, clearCurrentSessionA, hideIntentA,
            apply_ite AppState.connectionSessionId, apply_ite AppState.connectionState,
            apply_ite AppState.connectionIsConnected,
            apply_ite AppState.currentSessionId,
            apply_ite AppState.translationPairs, apply_ite AppState.currentPair,
            apply_ite AppState.emergencyTimerArmed, ite_self]

/-- C3 witness state: mid-session with an open tracked pair and a live
session id, where both persistence calls will fail. -/
def stopSample : AppState :=
  { initState with
      currentPair := some "9"
      connectionSessionId := some "sess-1"
      currentSessionId := some "sess-1"
      assistantTranscript := ""
      translationPairs :=
        [{ id := "9", originalText := "bye", translatedText := "",
           originalLang := .english, translatedLang := .spanish,
           timestamp := 9, isComplete := false }] }

/-- C3 witness: the stop theorem applied to `stopSample`, instantiated at
failing persistence (`endOk = false`, `summaryOk = false`). -/
theorem stop_force_finalizes_then_idles_witness :
    stopSample.currentPair = some "9" ∧
    (∃ p ∈ stopSample.translationPairs, p.id = "9") ∧
    (stopVoiceChatF stopSample false false).connectionSessionId = none ∧
    (stopVoiceChatF stopSample false false).currentSessionId = none ∧
    (stopVoiceChatF stopSample false false).currentPair = none ∧
    (stopVoiceChatF stopSample false false).emergencyTimerArmed = false :=
  ⟨rfl, by decide,
   ((stop_force_finalizes_then_idles stopSample "9" rfl (by decide)).2
      false false).1,
   ((stop_force_finalizes_then_idles stopSample "9" rfl (by decide)).2
      false false).2.2.2.1,
   ((stop_force_finalizes_then_idles stopSample "9" rfl (by decide)).2
      false false).2.2.2.2.2.1,
   ((stop_force_finalizes_then_idles stopSample "9" rfl (by decide)).2
      false false).2.2.2.2.2.2⟩

/-- C4 counterexample.  The utterance `repeat the lab order` contains
both a medical-action keyword (`lab order`) and a repeat keyword
(`repeat`), yet with a non-empty last translation the handler takes the
repeat branch first: classification yields Repeat, not MedicalAction,
and processing the utterance sends the repeat-replay command outward
instead of opening a medical-action placeholder pair. -/
theorem classification_priority_counterexample :
    isRepeatRequest "repeat the lab order" = true ∧
    (detectMedicalActionF "repeat the lab order").1 = true ∧
    classifyTranscript "hola" "repeat the lab order" = .repeatRequest ∧
    classifyTranscript "hola" "repeat the lab order" ≠ .medicalAction ∧
    (handleUserTranscriptF { initState with lastTranslation := "hola" }
        "repeat the lab order").sentMessages.head? =
      some (.repeatCommand "REPEAT_COMMAND: Please repeat exactly: \"hola\"") := by
  decide

/-- C4 amended.  Repeat keywords are checked before the medical-action
keywords: a finalized text containing both classifies as Repeat whenever
the last translation is non-empty, and as MedicalAction only when the
last translation is empty. -/
theorem classification_priority_amended (last t : String)
    (hr : isRepeatRequest t = true)
    (hm : (detectMedicalActionF t).1 = true) :
    classifyTranscript last t =
      (if last = "" then .medicalAction else .repeatRequest) := by
  by_cases hl : last = ""
  · simp [classifyTranscript, hr, hm, hl]
  · simp [classifyTranscript, hr, hm, hl]

/-- C4 witness: the amended classification theorem applied to the
double-keyword utterance, with and without repeat history. -/
theorem classification_priority_amended_witness :
    isRepeatRequest "repeat the lab order" = true ∧
    (detectMedicalActionF "repeat the lab order").1 = true ∧
    classifyTranscript "hola amigo" "repeat the lab order" =
      (if ("hola amigo" : String) = "" then .medicalAction else .repeatRequest) ∧
    classifyTranscript "" "repeat the lab order" =
      (if ("" : String) = "" then .medicalAction else .repeatRequest) :=
  ⟨by decide, by decide,
   classification_priority_amended "hola amigo" "repeat the lab order"
     (by decide) (by decide),
   classification_priority_amended "" "repeat the lab order"
     (by decide) (by decide)⟩

/-- C7.  Empty-payload fallback on response-end: when
`response.audio_transcript.done` carries an empty or missing transcript
while a pair is tracked and stored and the delta-accumulated text is
non-blank, the pair is finalized with the accumulated (trimmed) text. -/
theorem empty_payload_fallback (s : AppState) (pid : String)
    (transcript? : Option String)
    (hc : s.currentPair = some pid)
    (hm : ∃ p ∈ s.translationPairs, p.id = pid)
    (ht : ∀ t, transcript? = some t → jsTrim t = "")
    (ha : jsTrim s.assistantTranscript ≠ "") :
    ∃ p ∈ (handleAudioTranscriptDoneF s transcript?).translationPairs,
      p.id = pid ∧ p.isComplete = true ∧
      p.translatedText = jsTrim s.assistantTranscript := by
  have hpairs : (handleAudioTranscriptDoneF s transcript?).translationPairs =
      updateFirstPair s.translationPairs pid (jsTrim s.assistantTranscript)
        (some true) := by
    rcases transcript? with _ | t
    · simp [handleAudioTranscriptDoneF, ha, finalizeAssistantTranscriptF, hc,
            updateTranslationPairA, clearEmergencyTimeoutA, updateVoiceStatusA,
            apply_ite AppState.translationPairs, ite_self, saveMessageF]
    · have htt : jsTrim t = "" := ht t rfl
      simp [handleAudioTranscriptDoneF, htt, ha, finalizeAssistantTranscriptF,
            hc, updateTranslationPairA, clearEmergencyTimeoutA,
            updateVoiceStatusA, apply_ite AppState.translationPairs, ite_self,
            saveMessageF]
  rw [hpairs]
  obtain ⟨q, hq, hqid, hqtext, hqdone⟩ :=
    updateFirstPair_mem s.translationPairs pid _ hm
  exact ⟨q, hq, hqid, hqdone, hqtext⟩

/-- C7 witness state: open tracked pair with accumulated delta text. -/
def fallbackSample : AppState :=
  { initState with
      currentPair := some "11"
      assistantTranscript := " hola doctor "
      translationPairs :=
        [{ id := "11", originalText := "hello doctor", translatedText := "hola",
           originalLang := .english, translatedLang := .spanish,
           timestamp := 11, isComplete := false }] }

/-- C7 witness: the fallback theorem applied to `fallbackSample` with an
empty transcript payload. -/
theorem empty_payload_fallback_witness :
    fallbackSample.currentPair = some "11" ∧
    (∃ p ∈ fallbackSample.translationPairs, p.id = "11") ∧
    jsTrim fallbackSample.assistantTranscript ≠ "" ∧
    ∃ p ∈ (handleAudioTranscriptDoneF fallbackSample (some "  ")).translationPairs,
      p.id = "11" ∧ p.isComplete = true ∧
      p.translatedText = jsTrim fallbackSample.assistantTranscript :=
  ⟨rfl, by decide, by decide,
   empty_payload_fallback fallbackSample "11" (some "  ") rfl (by decide)
     (by intro t h; cases h; decide) (by decide)⟩

/-- C8.  Medical-action success: the success continuation of
`handleFunctionCall` finalizes the tracked medical-action pair with the
short confirmation text `Done`, and leaves the `lastTranslation` slot
unchanged. -/
theorem medical_action_success (s : AppState)
    (functionName callId sid result pid : String)
    (hc : s.currentPair = some pid)
    (hm : ∃ p ∈ s.translationPairs, p.id = pid) :
    (∃ p ∈ (handleFunctionCallSuccessF s functionName callId sid
        result).translationPairs,
      p.id = pid ∧ p.isComplete = true ∧ p.translatedText = "Done") ∧
    (handleFunctionCallSuccessF s functionName callId sid
        result).lastTranslation = s.lastTranslation := by
  constructor
  · have hpairs : (handleFunctionCallSuccessF s functionName callId sid
        result).translationPairs =
        updateFirstPair s.translationPairs pid "Done" (some true) := by
      simp [handleFunctionCallSuccessF, hc, saveMessageF, updateTranslationPairA,
            sendMessageF, updateVoiceStatusA]
    rw [hpairs]
    obtain ⟨q, hq, hqid, hqtext, hqdone⟩ :=
      updateFirstPair_mem s.translationPairs pid _ hm
    exact ⟨q, hq, hqid, hqdone, hqtext⟩
  · simp [handleFunctionCallSuccessF, hc, saveMessageF, updateTranslationPairA,
          sendMessageF, updateVoiceStatusA]

/-- C8 witness state: an open medical-action placeholder pair and a
previously stored last translation. -/
def actionSample : AppState :=
  { initState with
      currentPair := some "21"
      lastTranslation := "hola"
      connectionSessionId := some "sess-2"
      translationPairs :=
        [{ id := "21", originalText := "send lab order",
           translatedText := "🧪 Processing Lab Order...",
           originalLang := .english, translatedLang := .english,
           timestamp := 21, isComplete := false }] }

/-- C8 witness: the success theorem applied to `actionSample` for a lab
order. -/
theorem medical_action_success_witness :
    actionSample.currentPair = some "21" ∧
    (∃ p ∈ actionSample.translationPairs, p.id = "21") ∧
    ((∃ p ∈ (handleFunctionCallSuccessF actionSample "send_lab_order" "call-1"
        "sess-2" "ok").translationPairs,
      p.id = "21" ∧ p.isComplete = true ∧ p.translatedText = "Done") ∧
     (handleFunctionCallSuccessF actionSample "send_lab_order" "call-1"
        "sess-2" "ok").lastTranslation = actionSample.lastTranslation) :=
  ⟨rfl, by decide,
   medical_action_success actionSample "send_lab_order" "call-1" "sess-2" "ok"
     "21" rfl (by decide)⟩

end MedInterp


